import Mathlib

/-!
Verification of the job-crawler core: novelty filtering, retention pruning
and persistence in `linkedin_crawler.py`, and the similarity-match /
notification pipeline in `tfidf_matcher.py`.

Times are modelled as rational numbers of seconds; `timedelta(hours=1)` is
3600 seconds.  Similarity scores are modelled as rationals; the selection
and threshold logic of the matcher is translated generically over the
score values that the TF-IDF stage produces.
-/

namespace JobCrawler

/-- A posting record as persisted by `linkedin_crawler.py` (the dict built
in `scrape_linkedin_jobs`, lines 205-213).  `email_sent = none` models a
dict without the `email_sent` key; `some b` models the key present with
value `b`. -/
structure Job where
  title : String
  company : String
  location : String
  date_posted : String := "Recent"
  url : String := ""
  source : String := "LinkedIn"
  scraped_date : ℚ := 0
  email_sent : Option Bool := none
  deriving Repr, DecidableEq

/-- The identity-tuple comparison of `is_new_job` (lines 122-124):
title, company and location compared with Python `==` on strings
(exact, case-sensitive). -/
def sameIdentity (a b : Job) : Bool :=
  a.title == b.title && a.company == b.company && a.location == b.location

/-- Translation of `LinkedInJobCrawler.is_new_job` (lines 118-126): a job
is new iff no record of the previous store matches it on the identity
tuple. -/
def is_new_job (previous : List Job) (job : Job) : Bool :=
  !previous.any (fun prev_job => sameIdentity job prev_job)

/-- The new-job loop of `run_once` (lines 238-242): each fetched job that
`is_new_job` accepts gets `email_sent = False` and is collected. -/
def newJobs (previous current : List Job) : List Job :=
  (current.filter (is_new_job previous)).map
    (fun job => { job with email_sent := some false })

/-- The retention filter of `run_once` (lines 245-249): keep a prior
record iff its `scraped_date` is `>=` `now - timedelta(hours=1)`. -/
def filterRecent (now : ℚ) (previous : List Job) : List Job :=
  previous.filter (fun job => now - 3600 ≤ job.scraped_date)

/-- Translation of `run_once` (lines 237-256) without the scraping collaborator: from
the previous store, the freshly fetched batch and the current time, it
persists `filtered_previous_jobs + new_jobs` and returns `new_jobs`.
First component: the store passed to `save_jobs`; second: the return
value of `run_once`. -/
def run_once (previous current : List Job) (now : ℚ) : List Job × List Job :=
  let new := newJobs previous current
  (filterRecent now previous ++ new, new)

/-- Outcome of opening and parsing a persisted JSON document. -/
inductive LoadResult (α : Type) where
  | absent : LoadResult α
  | corrupt : LoadResult α
  | ok : α → LoadResult α
  deriving Repr, DecidableEq

/-- Translation of `LinkedInJobCrawler.load_previous_jobs` (lines 98-107): missing file
returns `[]`; a parse error is caught, reported and returns `[]`. -/
def load_previous_jobs : LoadResult (List Job) → List Job
  | .absent => []
  | .corrupt => []
  | .ok jobs => jobs

end JobCrawler

namespace TfidfMatcher

open JobCrawler (LoadResult)

/-- A record as read by `tfidf_matcher.py` from `database.json`.  Fields
that the matcher accesses with `record["k"]` / `record.get("k", d)` are
optional: `none` models an absent key. -/
structure MRecord where
  title : Option String := none
  company : Option String := none
  location : Option String := none
  url : Option String := none
  email_sent : Option Bool := none
  deriving Repr, DecidableEq

/-- An entry of the `matching_jobs` list (lines 161-168). -/
structure MatchJob where
  title : String
  company : String
  matched_company : String
  match_score : ℚ
  url : String
  location : String
  deriving Repr, DecidableEq

/-- The module-level load of `database.json` (lines 15-23):
`FileNotFoundError` and `json.JSONDecodeError` both print an error and
call `exit()`, so the run aborts (`none`); only a parseable file lets the
run continue. -/
def matcherLoad : LoadResult (List MRecord) → Option (List MRecord)
  | .absent => none
  | .corrupt => none
  | .ok records => some records

/-- The threshold test of line 150: `Similarity_Score >= threshold` with
`threshold = 0.6`. -/
def isMatch (score : ℚ) : Bool :=
  (6 : ℚ) / 10 ≤ score

/-- Translation of `matches = result_df[result_df['Is_Match']]`
(lines 150-153): the roster rows, in roster order, whose score passes the
threshold. -/
def acceptedRows (rows : List (String × ℚ)) : List (String × ℚ) :=
  rows.filter (fun r => isMatch r.2)

/-- One deterministic resolution of
`sort_values(by='Similarity_Score', ascending=False).iloc[0]`
(line 157): the first row attaining the maximal score.  pandas sorts
with the default `kind='quicksort'`, which is documented as not stable,
so among tied scores the row actually returned is implementation-defined;
this function fixes one of the admissible outcomes and is used only where
the choice among ties is irrelevant (whether a match exists, and the
flag update).  The implementation-defined behaviour itself is modelled
by `sortValuesDescResult` and `bestMatchRel` below. -/
def firstMaxRow : List (String × ℚ) → Option (String × ℚ)
  | [] => none
  | r :: rs =>
    match firstMaxRow rs with
    | none => some r
    | some b => if r.2 < b.2 then some b else some r

/-- Translation of the `best_match` selection (lines 148-157): filter by
the threshold, then take the top row of the descending sort, with the
tie order resolved as in `firstMaxRow`. -/
def bestMatch (rows : List (String × ℚ)) : Option (String × ℚ) :=
  firstMaxRow (acceptedRows rows)

/-- Faithful model of `matches.sort_values(by='Similarity_Score',
ascending=False)` (line 157): pandas' default `kind='quicksort'` is not
stable, so the only guarantee is that the output is some permutation of
the accepted rows that is descending in score; the relative order of
rows with equal scores is implementation-defined. -/
def sortValuesDescResult (rows out : List (String × ℚ)) : Prop :=
  List.Perm (acceptedRows rows) out ∧
    List.Sorted (fun a c => c.2 ≤ a.2) out

/-- The possible values of `best_match = ....iloc[0]` (line 157): `b` is
a possible selection iff some admissible sort output places it first. -/
def bestMatchRel (rows : List (String × ℚ)) (b : String × ℚ) : Prop :=
  ∃ out, sortValuesDescResult rows out ∧ out.head? = some b

/-- One iteration of the matching loop (lines 114-173), parametric in the
similarity scores `sim company` that the per-record TF-IDF stage assigns
to the roster entries.  In order, as in the source: line 116 skips any
record that has an `email_sent` key at all (whatever its value); line 118
skips records missing `company` or `url`; line 123 skips when
`record.get("email_sent", False)` is true (unreachable after line 116);
otherwise the best accepted roster match, if any, yields a `matching_jobs`
entry and the record gets `email_sent = True` in memory.  Returns the
produced match (if any) and the possibly-updated record. -/
def processRecord (sim : String → List ℚ) (roster : List String)
    (r : MRecord) : Option MatchJob × MRecord :=
  if (r.email_sent).isSome then (none, r)
  else
    match r.company, r.url with
    | some company_name, some job_url =>
      if r.email_sent.getD false then (none, r)
      else
        match bestMatch (roster.zip (sim company_name)) with
        | none => (none, r)
        | some best =>
          (some { title := r.title.getD "Unknown Title"
                  company := company_name
                  matched_company := best.1
                  match_score := best.2
                  url := job_url
                  location := r.location.getD "Unknown Location" },
           { r with email_sent := some true })
    | _, _ => (none, r)

/-- The whole matching loop over `json_data` (lines 112-173): collects
`matching_jobs` in store order and threads the in-memory flag updates. -/
def processAll (sim : String → List ℚ) (roster : List String) :
    List MRecord → List MatchJob × List MRecord
  | [] => ([], [])
  | r :: rs =>
    let first := processRecord sim roster r
    let rest := processAll sim roster rs
    (first.1.toList ++ rest.1, first.2 :: rest.2)

/-- The send-and-persist block (lines 176-185): when `matching_jobs` is
nonempty, one batched email is attempted; only when it reports success is
the updated `json_data` written back to `database.json`.  First
component: the content of `database.json` after the run (unchanged unless
a successful write happened); second: whether an email was delivered. -/
def runMatcher (sim : String → List ℚ) (roster : List String)
    (sendOk : Bool) (store : List MRecord) : List MRecord × Bool :=
  let step := processAll sim roster store
  if step.1.isEmpty then (store, false)
  else if sendOk then (step.2, true)
  else (store, false)

/-! The TF-IDF similarity stage (lines 133-146).  `TfidfVectorizer` is
instantiated with `analyzer='char_wb'` and `ngram_range=(2, 3)`, keeping
the defaults `lowercase=True`, `smooth_idf=True`, `sublinear_tf=False`
and `norm='l2'`.  The n-gram extraction and the term/document counts are
modelled executably; the idf weight and the l2 normalisation involve a
logarithm and a square root and are modelled over the reals. -/

/-- All contiguous length-`n` slices of `w` starting at offsets
`0 .. w.length - n`; when `w` is shorter than `n`, the single slice is
`w` itself, exactly as in sklearn's n-gram loop. -/
def slicesOfLen (n : ℕ) (w : List Char) : List (List Char) :=
  (List.range (w.length - n + 1)).map (fun i => (w.drop i).take n)

/-- sklearn `char_wb` n-grams of one already-padded word for
`ngram_range=(2, 3)`: the length-2 slices followed by the length-3
slices.  The guard models sklearn's early `break`: a word shorter than
the current n-gram length is emitted once as a whole and no longer
lengths are tried (unreachable here, since a padded word has length at
least 3). -/
def charWbNgramsWord (w : List Char) : List (List Char) :=
  if w.length ≤ 2 then slicesOfLen 2 w
  else slicesOfLen 2 w ++ slicesOfLen 3 w

/-- The `char_wb` analyzer: lowercase the document, split it on
whitespace discarding empty words, pad each word with one space on each
side, and emit the n-grams of every padded word. -/
def analyze (doc : String) : List (List Char) :=
  (((doc.toLower).split (fun c => c.isWhitespace)).filter
      (fun w => !w.isEmpty)).flatMap
    (fun w => charWbNgramsWord (' ' :: (w.data ++ [' '])))

/-- Raw term frequency of the n-gram `t` in document `doc`. -/
def tf (doc : String) (t : List Char) : ℕ :=
  (analyze doc).count t

/-- Document frequency of the n-gram `t` in the corpus `docs`. -/
def df (docs : List String) (t : List Char) : ℕ :=
  (docs.filter (fun d => (analyze d).contains t)).length

/-- The vocabulary: every n-gram occurring in some document of the
corpus, each once. -/
def vocab (docs : List String) : List (List Char) :=
  (docs.flatMap analyze).dedup

/-- Smoothed inverse document frequency, sklearn's
`ln((1 + n_docs) / (1 + df)) + 1`. -/
noncomputable def idf (docs : List String) (t : List Char) : ℝ :=
  Real.log ((1 + docs.length) / (1 + df docs t)) + 1

/-- Unnormalised TF-IDF weight of the n-gram `t` for document `d`. -/
noncomputable def tfidfWeight (docs : List String) (d : String)
    (t : List Char) : ℝ :=
  (tf d t : ℝ) * idf docs t

/-- Dot product of the unnormalised TF-IDF vectors of `a` and `b` over
the corpus vocabulary. -/
noncomputable def rawDot (docs : List String) (a b : String) : ℝ :=
  ((vocab docs).map
    (fun t => tfidfWeight docs a t * tfidfWeight docs b t)).sum

/-- Euclidean norm of the unnormalised TF-IDF vector of `d`. -/
noncomputable def docNorm (docs : List String) (d : String) : ℝ :=
  Real.sqrt (((vocab docs).map (fun t => tfidfWeight docs d t ^ 2)).sum)

/-- Cosine similarity of the TF-IDF vectors of `a` and `b`: the dot
product of the l2-normalised rows of the TF-IDF matrix (line 142). -/
noncomputable def cosineSimilarity (docs : List String) (a b : String) : ℝ :=
  rawDot docs a b / (docNorm docs a * docNorm docs b)

/-- Lines 133-142: for one record, the corpus is
`[company_name] + roster`, the vectorizer is fit on it from scratch, and
the similarity of the company against each roster entry is computed over
that per-query vector space. -/
noncomputable def cosine_similarities (company_name : String)
    (roster : List String) : List ℝ :=
  roster.map (fun ref => cosineSimilarity (company_name :: roster) company_name ref)

end TfidfMatcher

/-! Concrete fixtures used to exercise the definitions on explicit
inputs. -/

namespace Fix

open JobCrawler TfidfMatcher

/-- A freshly fetched posting. -/
def jobEx : JobCrawler.Job :=
  { title := "Data Engineer", company := "Acme Corp", location := "NY",
    url := "http://jobs/1", scraped_date := 7200 }

/-- A stored record with the same identity tuple as `jobEx` but an older
timestamp. -/
def prevEx : JobCrawler.Job :=
  { title := "Data Engineer", company := "Acme Corp", location := "NY",
    url := "http://jobs/0", scraped_date := 0 }

/-- A stored record with a different identity tuple. -/
def otherEx : JobCrawler.Job :=
  { title := "Old Role", company := "Beta LLC", location := "SF",
    scraped_date := 7000 }

/-- A one-entry reference roster. -/
def rosterEx : List String := ["ACME CORPORATION"]

/-- Similarity scores assigning 1 to the single roster entry. -/
def simEx : String → List ℚ := fun _ => [1]

/-- A store record carrying `email_sent = false`, as the crawler writes
new records. -/
def recFlagged : MRecord :=
  { title := some "Data Engineer", company := some "Acme Corp",
    location := some "NY", url := some "http://jobs/1",
    email_sent := some false }

/-- A store record with no `email_sent` key at all. -/
def recFresh : MRecord :=
  { title := some "Data Engineer", company := some "Acme Corp",
    location := some "NY", url := some "http://jobs/1",
    email_sent := none }

/-- Roster rows with scores: one below threshold, then two tied above
it. -/
def rowsEx : List (String × ℚ) :=
  [("Alpha", 0), ("Beta", 1), ("Gamma", 1)]

/-- A stored record timestamped exactly one retention window before the
reference time 7200. -/
def boundaryEx : JobCrawler.Job :=
  { title := "Boundary Role", company := "Gamma Inc", location := "LA",
    scraped_date := 3600 }

end Fix

/-! Helper lemmas about the embedded definitions. -/

namespace JobCrawler

theorem sameIdentity_symm (a b : Job) : sameIdentity a b = sameIdentity b a := by
  rw [Bool.eq_iff_iff]
  simp only [sameIdentity, Bool.and_eq_true, beq_iff_eq]
  constructor
  · rintro ⟨⟨h1, h2⟩, h3⟩; exact ⟨⟨h1.symm, h2.symm⟩, h3.symm⟩
  · rintro ⟨⟨h1, h2⟩, h3⟩; exact ⟨⟨h1.symm, h2.symm⟩, h3.symm⟩

theorem sameIdentity_trans {a b c : Job} (hab : sameIdentity a b = true)
    (hbc : sameIdentity b c = true) : sameIdentity a c = true := by
  simp only [sameIdentity, Bool.and_eq_true, beq_iff_eq] at *
  exact ⟨⟨hab.1.1.trans hbc.1.1, hab.1.2.trans hbc.1.2⟩, hab.2.trans hbc.2⟩

theorem sameIdentity_set_flag (a b : Job) (v : Option Bool) :
    sameIdentity { a with email_sent := v } b = sameIdentity a b := rfl

theorem sameIdentity_eq_true_iff (a b : Job) :
    sameIdentity a b = true ↔
      a.title = b.title ∧ a.company = b.company ∧ a.location = b.location := by
  simp [sameIdentity, and_assoc]

theorem is_new_job_iff (previous : List Job) (job : Job) :
    is_new_job previous job = true ↔
      ∀ p ∈ previous, sameIdentity job p = false := by
  simp [is_new_job, List.any_eq_true]

theorem mem_newJobs {previous current : List Job} {a : Job} :
    a ∈ newJobs previous current ↔
      ∃ job ∈ current, is_new_job previous job = true ∧
        a = { job with email_sent := some false } := by
  simp only [newJobs, List.mem_map, List.mem_filter]
  constructor
  · rintro ⟨job, ⟨hc, hn⟩, rfl⟩
    exact ⟨job, hc, hn, rfl⟩
  · rintro ⟨job, hc, hn, rfl⟩
    exact ⟨job, ⟨hc, hn⟩, rfl⟩

end JobCrawler

namespace TfidfMatcher

theorem processRecord_cases (sim : String → List ℚ) (roster : List String)
    (r : MRecord) :
    processRecord sim roster r = (none, r) ∨
      ∃ m, processRecord sim roster r =
        (some m, { r with email_sent := some true }) := by
  unfold processRecord
  split
  · exact Or.inl rfl
  · split
    · split
      · exact Or.inl rfl
      · split
        · exact Or.inl rfl
        · exact Or.inr ⟨_, rfl⟩
    · exact Or.inl rfl

theorem processRecord_flag {sim : String → List ℚ} {roster : List String}
    {r : MRecord} (h : (processRecord sim roster r).1.isSome = true) :
    (processRecord sim roster r).2 = { r with email_sent := some true } := by
  rcases processRecord_cases sim roster r with hc | ⟨m, hc⟩
  · rw [hc] at h; simp at h
  · rw [hc]

theorem processAll_snd (sim : String → List ℚ) (roster : List String)
    (store : List MRecord) :
    (processAll sim roster store).2 =
      store.map (fun r => (processRecord sim roster r).2) := by
  induction store with
  | nil => rfl
  | cons r rs ih => simp [processAll, ih]

theorem processAll_fst (sim : String → List ℚ) (roster : List String)
    (store : List MRecord) :
    (processAll sim roster store).1 =
      store.flatMap (fun r => ((processRecord sim roster r).1).toList) := by
  induction store with
  | nil => rfl
  | cons r rs ih => simp [processAll, ih]

theorem processAll_fst_nonempty {sim : String → List ℚ} {roster : List String}
    {store : List MRecord} {r : MRecord} (hr : r ∈ store)
    (h : (processRecord sim roster r).1.isSome = true) :
    (processAll sim roster store).1.isEmpty = false := by
  rw [processAll_fst]
  obtain ⟨m, hm⟩ := Option.isSome_iff_exists.mp h
  have hmem : m ∈ store.flatMap
      (fun r => ((processRecord sim roster r).1).toList) :=
    List.mem_flatMap.mpr ⟨r, hr, by simp [hm]⟩
  have hne := List.ne_nil_of_mem hmem
  exact Bool.eq_false_iff.mpr (fun hh => hne (List.isEmpty_iff.mp hh))

end TfidfMatcher

/-! Claim theorems. -/

/-- C4, counterexample: on a corrupt (unparseable) store file the
module-level load of `tfidf_matcher.py` aborts the run instead of
proceeding with the empty sequence. -/
theorem c4_matcher_load_corrupt_fatal :
    TfidfMatcher.matcherLoad JobCrawler.LoadResult.corrupt ≠
      some ([] : List TfidfMatcher.MRecord) := by decide

/-- C4 (amended): the crawler's `load_previous_jobs` yields the empty
sequence when the store file is absent or unparseable and the run
proceeds, while the matcher's module-level load of the same store exits
the run in both of those cases, continuing only on a parseable file. -/
theorem c4_load_behaviour (jobs : List JobCrawler.Job)
    (records : List TfidfMatcher.MRecord) :
    JobCrawler.load_previous_jobs .absent = [] ∧
    JobCrawler.load_previous_jobs .corrupt = [] ∧
    JobCrawler.load_previous_jobs (.ok jobs) = jobs ∧
    TfidfMatcher.matcherLoad .absent = none ∧
    TfidfMatcher.matcherLoad .corrupt = none ∧
    TfidfMatcher.matcherLoad (.ok records) = some records :=
  ⟨rfl, rfl, rfl, rfl, rfl, rfl⟩

/-- C4 witness: the load behaviour evaluated at concrete parsed
contents. -/
theorem c4_load_behaviour_witness :
    JobCrawler.load_previous_jobs .absent = [] ∧
    JobCrawler.load_previous_jobs .corrupt = [] ∧
    JobCrawler.load_previous_jobs (.ok [Fix.prevEx]) = [Fix.prevEx] ∧
    TfidfMatcher.matcherLoad .absent = none ∧
    TfidfMatcher.matcherLoad .corrupt = none ∧
    TfidfMatcher.matcherLoad (.ok [Fix.recFresh]) = some [Fix.recFresh] :=
  c4_load_behaviour [Fix.prevEx] [Fix.recFresh]

/-- C7: a roster row whose similarity score is exactly 0.6 is accepted by
the threshold filter (the comparison is ≥, not >), and a row scoring
strictly below 0.6 is rejected. -/
theorem c7_threshold_boundary (name : String) (s : ℚ)
    (rows : List (String × ℚ)) (hmem : (name, s) ∈ rows) :
    (s = 6 / 10 → (name, s) ∈ TfidfMatcher.acceptedRows rows) ∧
    (s < 6 / 10 → (name, s) ∉ TfidfMatcher.acceptedRows rows) := by
  constructor
  · intro hs
    refine List.mem_filter.mpr ⟨hmem, ?_⟩
    simp [TfidfMatcher.isMatch, hs]
  · intro hs hmem2
    have hb := (List.mem_filter.mp hmem2).2
    simp [TfidfMatcher.isMatch] at hb
    linarith

/-- C7 witness: the boundary row scoring exactly 0.6 is accepted. -/
theorem c7_threshold_boundary_witness :
    ("Beta", (6 : ℚ) / 10) ∈
      TfidfMatcher.acceptedRows [("Beta", (6 : ℚ) / 10)] :=
  (c7_threshold_boundary "Beta" (6 / 10) [("Beta", (6 : ℚ) / 10)]
    (List.mem_singleton_self _)).1 rfl

/-- C8: `is_new_job` is a pure predicate: a candidate is new iff no
record of the previous store equals it on the identity tuple under plain
string equality (case-sensitive, no normalisation), and the new-set
computed twice from the same candidate set and previous store is the
same both times. -/
theorem c8_is_new_pure (previous current : List JobCrawler.Job)
    (job : JobCrawler.Job) :
    (JobCrawler.is_new_job previous job = true ↔
      ∀ p ∈ previous, ¬(job.title = p.title ∧ job.company = p.company ∧
        job.location = p.location)) ∧
    JobCrawler.newJobs previous current = JobCrawler.newJobs previous current := by
  refine ⟨?_, rfl⟩
  rw [JobCrawler.is_new_job_iff]
  constructor
  · intro h p hp hc
    have hfalse := h p hp
    rw [(JobCrawler.sameIdentity_eq_true_iff job p).mpr hc] at hfalse
    cases hfalse
  · intro h p hp
    cases hx : JobCrawler.sameIdentity job p
    · rfl
    · exact absurd ((JobCrawler.sameIdentity_eq_true_iff job p).mp hx) (h p hp)

/-- C8 witness: the characterisation evaluated on a concrete store and
candidate. -/
theorem c8_is_new_pure_witness :
    (JobCrawler.is_new_job [Fix.prevEx] Fix.jobEx = true ↔
      ∀ p ∈ [Fix.prevEx], ¬(Fix.jobEx.title = p.title ∧
        Fix.jobEx.company = p.company ∧ Fix.jobEx.location = p.location)) ∧
    JobCrawler.newJobs [Fix.prevEx] [Fix.jobEx] =
      JobCrawler.newJobs [Fix.prevEx] [Fix.jobEx] :=
  c8_is_new_pure [Fix.prevEx] [Fix.jobEx] Fix.jobEx

/-- C9: the similarity computation is deterministic: a fixed
(query, roster) pair always yields the same score vector from the
per-query TF-IDF pipeline, and the whole per-record matching step is a
pure function of its inputs. -/
theorem c9_similarity_deterministic (company : String) (roster : List String)
    (sim : String → List ℚ) (r : TfidfMatcher.MRecord) :
    TfidfMatcher.cosine_similarities company roster =
      TfidfMatcher.cosine_similarities company roster ∧
    TfidfMatcher.processRecord sim roster r =
      TfidfMatcher.processRecord sim roster r :=
  ⟨rfl, rfl⟩

/-- C9 witness: determinism instantiated at a concrete query, roster and
record. -/
theorem c9_similarity_deterministic_witness :
    TfidfMatcher.cosine_similarities "Acme Corp" Fix.rosterEx =
      TfidfMatcher.cosine_similarities "Acme Corp" Fix.rosterEx ∧
    TfidfMatcher.processRecord Fix.simEx Fix.rosterEx Fix.recFresh =
      TfidfMatcher.processRecord Fix.simEx Fix.rosterEx Fix.recFresh :=
  c9_similarity_deterministic "Acme Corp" Fix.rosterEx Fix.simEx Fix.recFresh

/-- C2, counterexample: with an empty previous store and the same
candidate fetched twice in one fresh batch, `run_once` persists two
records with identical identity tuple — the batch is not deduplicated
against itself. -/
theorem c2_duplicate_batch_counterexample :
    (JobCrawler.run_once [] [Fix.jobEx, Fix.jobEx] 7200).1 =
      [{ Fix.jobEx with email_sent := some false },
       { Fix.jobEx with email_sent := some false }] ∧
    JobCrawler.sameIdentity { Fix.jobEx with email_sent := some false }
      { Fix.jobEx with email_sent := some false } = true :=
  ⟨rfl, by decide⟩

/-- C2 (amended): deduplication holds only against the previous store:
every record the run adds from the fresh batch differs on the identity
tuple from every record of the previous store (hence from every retained
prior record); two identical candidates inside one fresh batch are both
persisted. -/
theorem c2_new_jobs_distinct_from_previous
    (previous current : List JobCrawler.Job) :
    ∀ a ∈ JobCrawler.newJobs previous current, ∀ p ∈ previous,
      JobCrawler.sameIdentity a p = false := by
  intro a ha p hp
  obtain ⟨job, _, hn, rfl⟩ := JobCrawler.mem_newJobs.mp ha
  rw [JobCrawler.sameIdentity_set_flag]
  exact (JobCrawler.is_new_job_iff previous job).mp hn p hp

/-- C2 witness: a persisted new record compared against the one stored
record it was checked against. -/
theorem c2_new_jobs_distinct_from_previous_witness :
    JobCrawler.sameIdentity { Fix.jobEx with email_sent := some false }
      Fix.otherEx = false :=
  c2_new_jobs_distinct_from_previous [Fix.otherEx] [Fix.jobEx]
    { Fix.jobEx with email_sent := some false } (by decide)
    Fix.otherEx (by decide)

/-- C5, counterexample: on two accepted rows tied at the highest score
the unstable sort may place the later roster row first, so the selection
is not guaranteed to be the first occurrence in roster order: returning
"Gamma" rather than the earlier tied "Beta" is a possible outcome of
line 157. -/
theorem c5_tiebreak_counterexample :
    TfidfMatcher.bestMatchRel [("Beta", (1 : ℚ)), ("Gamma", (1 : ℚ))]
      ("Gamma", (1 : ℚ)) ∧
    ("Gamma", (1 : ℚ)) ≠ ("Beta", (1 : ℚ)) := by
  constructor
  · refine ⟨[("Gamma", 1), ("Beta", 1)], ⟨?_, ?_⟩, rfl⟩
    · have hacc : TfidfMatcher.acceptedRows [("Beta", (1 : ℚ)), ("Gamma", (1 : ℚ))] =
          [("Beta", (1 : ℚ)), ("Gamma", (1 : ℚ))] := by
        norm_num [TfidfMatcher.acceptedRows, TfidfMatcher.isMatch]
      rw [hacc]
      exact List.Perm.swap _ _ _
    · refine List.sorted_cons.mpr ⟨?_, List.sorted_singleton _⟩
      intro x hx
      rcases List.mem_singleton.mp hx with rfl
      exact le_refl _
  · simp

/-- C5 (amended): the selection retains exactly one accepted row and it
carries the maximal accepted score: every possible outcome of the
unstable descending sort is a threshold-passing row whose score
dominates every accepted row, and whenever some row passes the threshold
a selection exists.  Which of several rows tied at the top score is
returned is implementation-defined, not guaranteed first-in-roster. -/
theorem c5_best_match_selection (rows : List (String × ℚ)) :
    (∀ b, TfidfMatcher.bestMatchRel rows b →
      b ∈ TfidfMatcher.acceptedRows rows ∧
      TfidfMatcher.isMatch b.2 = true ∧
      ∀ r ∈ TfidfMatcher.acceptedRows rows, r.2 ≤ b.2) ∧
    (TfidfMatcher.acceptedRows rows ≠ [] →
      ∃ b, TfidfMatcher.bestMatchRel rows b) := by
  constructor
  · rintro b ⟨out, ⟨hperm, hsort⟩, hhead⟩
    cases out with
    | nil => cases hhead
    | cons o t =>
      injection hhead with hhead
      subst hhead
      have hbmem : o ∈ TfidfMatcher.acceptedRows rows :=
        hperm.mem_iff.mpr (List.mem_cons_self _ _)
      refine ⟨hbmem, (List.mem_filter.mp hbmem).2, ?_⟩
      intro r hr
      have hrout : r ∈ o :: t := hperm.subset hr
      rcases List.mem_cons.mp hrout with rfl | hrt
      · exact le_refl _
      · exact (List.sorted_cons.mp hsort).1 r hrt
  · intro hne
    haveI ht : IsTotal (String × ℚ) (fun a c => c.2 ≤ a.2) :=
      ⟨fun a c => le_total c.2 a.2⟩
    haveI htr : IsTrans (String × ℚ) (fun a c => c.2 ≤ a.2) :=
      ⟨fun _ _ _ h1 h2 => le_trans h2 h1⟩
    have hperm : List.Perm (TfidfMatcher.acceptedRows rows)
        (List.insertionSort (fun a c => c.2 ≤ a.2)
          (TfidfMatcher.acceptedRows rows)) :=
      (List.perm_insertionSort _ _).symm
    have hsort : List.Sorted (fun a c : String × ℚ => c.2 ≤ a.2)
        (List.insertionSort (fun a c => c.2 ≤ a.2)
          (TfidfMatcher.acceptedRows rows)) :=
      List.sorted_insertionSort _ _
    cases houtc : List.insertionSort (fun a c : String × ℚ => c.2 ≤ a.2)
        (TfidfMatcher.acceptedRows rows) with
    | nil =>
      rw [houtc] at hperm
      exact absurd hperm.eq_nil hne
    | cons b t =>
      rw [houtc] at hperm hsort
      exact ⟨b, ⟨b :: t, ⟨hperm, hsort⟩, rfl⟩⟩

/-- C5 helper evaluation: the accepted rows of the tied fixture. -/
theorem acceptedRows_rowsEx :
    TfidfMatcher.acceptedRows Fix.rowsEx =
      [("Beta", (1 : ℚ)), ("Gamma", (1 : ℚ))] := by
  norm_num [TfidfMatcher.acceptedRows, Fix.rowsEx, TfidfMatcher.isMatch]

/-- C5 witness: the selection property evaluated at a possible outcome
on rows with a below-threshold score and two tied accepted scores. -/
theorem c5_best_match_selection_witness :
    ("Beta", (1 : ℚ)) ∈ TfidfMatcher.acceptedRows Fix.rowsEx ∧
    TfidfMatcher.isMatch (1 : ℚ) = true ∧
    (∀ r ∈ TfidfMatcher.acceptedRows Fix.rowsEx, r.2 ≤ (1 : ℚ)) :=
  (c5_best_match_selection Fix.rowsEx).1 ("Beta", 1)
    ⟨[("Beta", 1), ("Gamma", 1)],
     ⟨by rw [acceptedRows_rowsEx],
      by
        refine List.sorted_cons.mpr ⟨?_, List.sorted_singleton _⟩
        intro x hx
        rcases List.mem_singleton.mp hx with rfl
        exact le_refl _⟩,
     rfl⟩

/-- C6: a prior record whose `scraped_date` is exactly `now − 3600`
seconds is retained and reaches the persisted store, while any prior
record strictly older than that cutoff is removed by the retention
filter before the merge with the new records. -/
theorem c6_retention_boundary (previous current : List JobCrawler.Job)
    (now : ℚ) (job : JobCrawler.Job) (hmem : job ∈ previous) :
    (job.scraped_date = now - 3600 →
      job ∈ (JobCrawler.run_once previous current now).1) ∧
    (job.scraped_date < now - 3600 →
      job ∉ JobCrawler.filterRecent now previous) := by
  constructor
  · intro h
    have hkeep : job ∈ JobCrawler.filterRecent now previous :=
      List.mem_filter.mpr ⟨hmem, by simp [h]⟩
    simp only [JobCrawler.run_once]
    exact List.mem_append_left _ hkeep
  · intro h hmem2
    have hb := (List.mem_filter.mp hmem2).2
    simp at hb
    linarith

/-- C6 witness: the record timestamped exactly one window before the
current time survives the run. -/
theorem c6_retention_boundary_witness :
    Fix.boundaryEx ∈
      (JobCrawler.run_once [Fix.boundaryEx, Fix.prevEx] [] 7200).1 :=
  (c6_retention_boundary [Fix.boundaryEx, Fix.prevEx] [] 7200 Fix.boundaryEx
    (by simp)).1 (by norm_num [Fix.boundaryEx])

/-- C10: when a fetched posting duplicates a stored record on the
identity tuple, the fresh batch contributes no record with that identity;
the stored record, if still inside the retention window, is persisted
bit-for-bit with its original `scraped_date` (not refreshed); and once
every stored record with that identity has aged out of the window, no
record with that identity survives the run, even though the posting was
just re-observed. -/
theorem c10_duplicate_frame (previous current : List JobCrawler.Job)
    (now : ℚ) (job p : JobCrawler.Job) (_hjob : job ∈ current)
    (hp : p ∈ previous) (hid : JobCrawler.sameIdentity job p = true) :
    (∀ a ∈ JobCrawler.newJobs previous current,
      JobCrawler.sameIdentity a job = false) ∧
    (now - 3600 ≤ p.scraped_date →
      p ∈ (JobCrawler.run_once previous current now).1) ∧
    ((∀ q ∈ previous, JobCrawler.sameIdentity job q = true →
        q.scraped_date < now - 3600) →
      ∀ q ∈ (JobCrawler.run_once previous current now).1,
        JobCrawler.sameIdentity job q = false) := by
  have hpart1 : ∀ a ∈ JobCrawler.newJobs previous current,
      JobCrawler.sameIdentity a job = false := by
    intro a ha
    obtain ⟨job1, _, hn, rfl⟩ := JobCrawler.mem_newJobs.mp ha
    rw [JobCrawler.sameIdentity_set_flag]
    cases hx : JobCrawler.sameIdentity job1 job
    · rfl
    · exfalso
      have h1 : JobCrawler.sameIdentity job1 p = true :=
        JobCrawler.sameIdentity_trans hx hid
      have h2 := (JobCrawler.is_new_job_iff previous job1).mp hn p hp
      rw [h1] at h2
      cases h2
  refine ⟨hpart1, ?_, ?_⟩
  · intro h
    have hkeep : p ∈ JobCrawler.filterRecent now previous :=
      List.mem_filter.mpr ⟨hp, by simp [h]⟩
    simp only [JobCrawler.run_once]
    exact List.mem_append_left _ hkeep
  · intro hexp q hq
    simp only [JobCrawler.run_once] at hq
    cases hx : JobCrawler.sameIdentity job q
    · rfl
    · exfalso
      rcases List.mem_append.mp hq with hq1 | hq2
      · have hqprev := (List.mem_filter.mp hq1).1
        have hrecent := (List.mem_filter.mp hq1).2
        simp at hrecent
        have := hexp q hqprev hx
        linarith
      · have := hpart1 q hq2
        rw [JobCrawler.sameIdentity_symm] at this
        rw [hx] at this
        cases this

/-- C10 helper evaluation: with one expired duplicate record, one live
unrelated record, and the duplicate posting re-observed, the persisted
store is exactly the unrelated record. -/
theorem run_once_c10_eval :
    (JobCrawler.run_once [Fix.prevEx, Fix.otherEx] [Fix.jobEx] 7200).1 =
      [Fix.otherEx] := by
  norm_num [JobCrawler.run_once, JobCrawler.filterRecent,
    JobCrawler.newJobs, Fix.prevEx, Fix.otherEx, Fix.jobEx,
    JobCrawler.is_new_job, JobCrawler.sameIdentity]

/-- C10 witness: the eviction conclusion instantiated at the one record
surviving the concrete run. -/
theorem c10_duplicate_frame_witness :
    JobCrawler.sameIdentity Fix.jobEx Fix.otherEx = false :=
  (c10_duplicate_frame [Fix.prevEx, Fix.otherEx] [Fix.jobEx] 7200 Fix.jobEx
      Fix.prevEx (by simp) (by simp) (by decide)).2.2
    (by
      intro q hq
      rcases List.mem_cons.mp hq with rfl | hq
      · intro _; norm_num [Fix.prevEx]
      · simp at hq
        subst hq
        intro h
        cases h)
    Fix.otherEx (by rw [run_once_c10_eval]; simp)

/-- C1 helper evaluation: the fixture roster scores 1 against any
company, so a processed record would match. -/
theorem bestMatch_rosterEx :
    TfidfMatcher.bestMatch (Fix.rosterEx.zip (Fix.simEx "Acme Corp")) =
      some ("ACME CORPORATION", 1) := by
  norm_num [TfidfMatcher.bestMatch, TfidfMatcher.acceptedRows, Fix.rosterEx,
    Fix.simEx, TfidfMatcher.isMatch, TfidfMatcher.firstMaxRow]

/-- C1: evaluation at the failing input.  A record that still carries
`email_sent = false` and whose company scores 1.0 against the roster
(so it would be matched and re-sent according to the claim) is skipped
outright by the matching loop, because line 116 of `tfidf_matcher.py`
skips every record that has an `email_sent` key at all.  With the
transport failing, the run leaves the store unchanged — and on the next
run against that unchanged store the record is skipped again: no match
is produced, no email is ever attempted, and the flag never becomes
true.  The match is silently lost, contradicting the claim. -/
theorem c1_flagged_record_never_resent :
    Fix.recFlagged.email_sent = some false ∧
    TfidfMatcher.bestMatch (Fix.rosterEx.zip (Fix.simEx "Acme Corp")) =
      some ("ACME CORPORATION", 1) ∧
    TfidfMatcher.processRecord Fix.simEx Fix.rosterEx Fix.recFlagged =
      (none, Fix.recFlagged) ∧
    TfidfMatcher.runMatcher Fix.simEx Fix.rosterEx false [Fix.recFlagged] =
      ([Fix.recFlagged], false) ∧
    TfidfMatcher.runMatcher Fix.simEx Fix.rosterEx true [Fix.recFlagged] =
      ([Fix.recFlagged], false) :=
  ⟨rfl, bestMatch_rosterEx, rfl, rfl, rfl⟩

/-- C3: the flag update is atomic with the transport outcome: when the
batched send fails the persisted store is exactly the previous store (no
flags persisted, no write), and when it succeeds every record that
produced a match is persisted in place with `email_sent = true`. -/
theorem c3_notify_persist_atomic (sim : String → List ℚ)
    (roster : List String) (store : List TfidfMatcher.MRecord) :
    (TfidfMatcher.runMatcher sim roster false store).1 = store ∧
    (∀ i r, store.get? i = some r →
      (TfidfMatcher.runMatcher sim roster true store).1.get? i =
        some (TfidfMatcher.processRecord sim roster r).2) ∧
    ∀ i r, store.get? i = some r →
      ((TfidfMatcher.processRecord sim roster r).1).isSome = true →
      (TfidfMatcher.runMatcher sim roster true store).1.get? i =
        some { r with email_sent := some true } := by
  refine ⟨?_, ?_, ?_⟩
  · unfold TfidfMatcher.runMatcher
    dsimp only
    split
    · rfl
    · rfl
  · intro i r hget
    have hr : r ∈ store := List.get?_mem hget
    unfold TfidfMatcher.runMatcher
    dsimp only
    cases hE : (TfidfMatcher.processAll sim roster store).1.isEmpty with
    | true =>
      simp only [if_true]
      rcases TfidfMatcher.processRecord_cases sim roster r with hc | ⟨m, hc⟩
      · rw [hc]; exact hget
      · exfalso
        have hsome : ((TfidfMatcher.processRecord sim roster r).1).isSome = true := by
          rw [hc]; rfl
        have := TfidfMatcher.processAll_fst_nonempty hr hsome
        rw [hE] at this
        cases this
    | false =>
      simp only [Bool.false_eq_true, if_false, if_true]
      rw [TfidfMatcher.processAll_snd, List.get?_map, hget, Option.map_some']
  · intro i r hget hsome
    have hr : r ∈ store := List.get?_mem hget
    have hne := TfidfMatcher.processAll_fst_nonempty hr hsome
    unfold TfidfMatcher.runMatcher
    dsimp only
    rw [hne]
    simp only [Bool.false_eq_true, if_false, if_true]
    rw [TfidfMatcher.processAll_snd, List.get?_map, hget, Option.map_some']
    rw [TfidfMatcher.processRecord_flag hsome]

/-- C3 witness: a one-record store whose record matches: a failed send
persists the store unchanged, a successful send persists the record with
its flag set. -/
theorem c3_notify_persist_atomic_witness :
    (TfidfMatcher.runMatcher Fix.simEx Fix.rosterEx false [Fix.recFresh]).1 =
      [Fix.recFresh] ∧
    (TfidfMatcher.runMatcher Fix.simEx Fix.rosterEx true [Fix.recFresh]).1.get? 0 =
      some { Fix.recFresh with email_sent := some true } :=
  ⟨(c3_notify_persist_atomic Fix.simEx Fix.rosterEx [Fix.recFresh]).1,
   (c3_notify_persist_atomic Fix.simEx Fix.rosterEx [Fix.recFresh]).2.2 0
     Fix.recFresh rfl
     (by simp [TfidfMatcher.processRecord, Fix.recFresh, bestMatch_rosterEx])⟩
